import Mathlib

/-!
# Verification of `Utilities/build-script-helper.py`

A shallow embedding of the build/install orchestration script of this
repository.  Pure path computations become Lean string functions; the
mutable filesystem becomes an explicit association list from paths to file
data threaded through every operation; the external tools the script invokes
(`lipo`, `install_name_tool`, `rsync`, the compiler query) are modelled from
the interface the specification gives for them; Python exceptions become an
explicit `Result` type.  Python 2 / Python 3 differences that matter
(`str.decode` existing only on byte strings under Python 3) are modelled by
a `py3 : Bool` semantics flag.
-/

namespace SwiftDriverBuild

/-- A file's contents: its byte blob together with the list of runtime
search-path (`rpath`) entries embedded in its load commands — the metadata
that `install_name_tool` edits. -/
structure FileData where
  blob : String
  rpaths : List String
deriving DecidableEq, Repr

/-- The filesystem: an association list from path strings to file data.
`fsRead` returns the first binding of a path. -/
abbrev FS := List (String × FileData)

def fsRead : FS → String → Option FileData
  | [], _ => none
  | e :: es, p => if e.1 = p then some e.2 else fsRead es p

def fsErase : FS → String → FS
  | [], _ => []
  | e :: es, p => if e.1 = p then fsErase es p else e :: fsErase es p

/-- Overwrite (or create) the file at path `p`. -/
def fsWrite (fs : FS) (p : String) (d : FileData) : FS :=
  (p, d) :: fsErase fs p

/-- `os.path.join` with a relative second component. -/
def pjoin (a b : String) : String := a ++ "/" ++ b

/-- Split a character list on a separator (the list-level counterpart of
Python's `str.split`); always returns a non-empty list of pieces. -/
def splitChar (sep : Char) : List Char → List (List Char)
  | [] => [[]]
  | x :: xs =>
    match splitChar sep xs with
    | [] => [[]]
    | h :: t => if x = sep then [] :: h :: t else (x :: h) :: t

/-- Join strings with a separator. -/
def joinSep (sep : String) : List String → String
  | [] => ""
  | [x] => x
  | x :: xs => x ++ sep ++ joinSep sep xs

theorem fsRead_fsErase_self (fs : FS) (p : String) : fsRead (fsErase fs p) p = none := by
  induction fs with
  | nil => simp [fsErase, fsRead]
  | cons e es ih =>
    by_cases h : e.1 = p
    · simpa [fsErase, h] using ih
    · simp [fsErase, fsRead, h, ih]

theorem fsRead_fsErase_ne (fs : FS) (p q : String) (h : q ≠ p) :
    fsRead (fsErase fs p) q = fsRead fs q := by
  have hpq : p ≠ q := fun hq => h hq.symm
  induction fs with
  | nil => simp [fsErase]
  | cons e es ih =>
    by_cases he : e.1 = p
    · simp [fsErase, fsRead, he, hpq, ih]
    · by_cases heq : e.1 = q
      · simp [fsErase, fsRead, he, heq, h]
      · simp [fsErase, fsRead, he, heq, ih]

theorem fsRead_fsWrite_self (fs : FS) (p : String) (d : FileData) :
    fsRead (fsWrite fs p d) p = some d := by
  simp [fsWrite, fsRead]

theorem fsRead_fsWrite_ne (fs : FS) (p q : String) (d : FileData) (h : q ≠ p) :
    fsRead (fsWrite fs p d) q = fsRead fs q := by
  have : p ≠ q := fun hq => h hq.symm
  simp [fsWrite, fsRead, this, fsRead_fsErase_ne fs p q h]

/-- Python exceptions (and `SystemExit` raised by the script's `error`). -/
inductive PyExc where
  | calledProcessError
  | attributeError
  | osError
  | systemExit (code : Nat)
deriving DecidableEq, Repr

/-- Python string values: Python 3 distinguishes text strings from byte
strings; only the latter have `.decode`. -/
inductive PyStr where
  | str (s : String)
  | bytes (s : String)
deriving DecidableEq, Repr

/-- `.decode('UTF-8')` under the semantics selected by `py3`: under
Python 3 only byte strings have a `decode` attribute (text strings raise
`AttributeError`); under Python 2 `str.decode` also succeeds (ASCII paths). -/
def pyDecode (py3 : Bool) : PyStr → Except PyExc String
  | .bytes s => .ok s
  | .str s => if py3 then .error .attributeError else .ok s

/-- Interpreter state: the filesystem plus the warnings printed so far. -/
structure St where
  fs : FS
  log : List String
deriving DecidableEq, Repr

/-- Outcome of running a piece of the script: normal return or a raised
exception; either way the state at that moment is kept. -/
inductive Result where
  | ok : St → Result
  | raised : PyExc → St → Result
deriving DecidableEq, Repr

def Result.st : Result → St
  | .ok s => s
  | .raised _ s => s

def Result.isOk : Result → Bool
  | .ok _ => true
  | .raised _ _ => false

/-- Sequencing with Python exception propagation. -/
def Result.andThen (r : Result) (f : St → Result) : Result :=
  match r with
  | .ok s => f s
  | .raised e s => .raised e s

def St.warn (s : St) (m : String) : St :=
  { s with log := s.log ++ [m] }

/-! ## External tools

The script drives external tools through `subprocess`.  The tools themselves
are outside the repository; they are modelled from the interfaces §4.4, §4.5
and §6 of the specification give for them. -/

/-- Read every input file; `none` if any is absent. -/
def readAll (fs : FS) : List String → Option (List FileData)
  | [] => some []
  | p :: ps =>
    match fsRead fs p, readAll fs ps with
    | some d, some ds => some (d :: ds)
    | _, _ => none

/-- The architecture-merge of N inputs: a single input passes through
unchanged (a straight copy); several inputs form one fat file. -/
def mergeData : List FileData → FileData
  | [d] => d
  | ds => { blob := "FAT(" ++ joinSep "," (ds.map FileData.blob) ++ ")", rpaths := [] }

/-- Modelled from the spec: the external architecture-merge tool (`lipo`),
§6 "invoked with N input file paths and one output path; produces a single
multi-architecture file" and §4.4 "fails ... if the merge tool reports
nonzero exit or any input path does not exist".  On failure nothing is
written and the tool's nonzero exit makes the script's
`subprocess.check_call` raise `CalledProcessError`. -/
def lipo_create (st : St) (inputs : List String) (output : String) : Result :=
  match readAll st.fs inputs with
  | none => .raised .calledProcessError st
  | some ds => .ok { st with fs := fsWrite st.fs output (mergeData ds) }

/-- Modelled from the spec: the binary-metadata tool
(`install_name_tool -delete_rpath`), §6/§4.5 — removes a search path from a
binary's metadata, exiting nonzero when it cannot (binary absent, or the
path "being removed is already absent, which happens on repeated/incremental
builds").  Returns the updated filesystem and the exit status. -/
def install_name_tool_delete (fs : FS) (rpath binary : String) : FS × Int :=
  match fsRead fs binary with
  | none => (fs, 1)
  | some d =>
    if rpath ∈ d.rpaths then
      (fsWrite fs binary { d with rpaths := d.rpaths.erase rpath }, 0)
    else (fs, 1)

/-- Modelled from the spec: the binary-metadata tool
(`install_name_tool -add_rpath`), §6/§4.5 — adds a search path to a binary's
metadata, exiting nonzero when it cannot (binary absent, or the path already
present). -/
def install_name_tool_add (fs : FS) (rpath binary : String) : FS × Int :=
  match fsRead fs binary with
  | none => (fs, 1)
  | some d =>
    if rpath ∈ d.rpaths then (fs, 1)
    else (fsWrite fs binary { d with rpaths := rpath :: d.rpaths }, 0)

/-- Modelled from the spec: the recursive copy utility (`rsync -a src dst`),
§6 — copies `src` into directory `dst` preserving the file, exiting nonzero
(so `subprocess.check_call` raises) when the source is absent. -/
def rsync_file (st : St) (src dstDir dstName : String) : Result :=
  match fsRead st.fs src with
  | none => .raised .calledProcessError st
  | some d => .ok { st with fs := fsWrite st.fs (pjoin dstDir dstName) d }

/-- `os.rename`: raises `OSError` when the source is absent, else moves the
file, replacing any existing destination. -/
def os_rename (st : St) (src dst : String) : Result :=
  match fsRead st.fs src with
  | none => .raised .osError st
  | some d => .ok { st with fs := fsWrite (fsErase st.fs src) dst d }

/-! ## Embeddings of the script's install helpers (source lines 112-143). -/

/-- `install_binary(file, source_dir, install_dir, verbose)` — the script
unconditionally calls `source_dir.decode('UTF-8')` and then runs
`rsync -a <decoded>/<file> <install_dir>` via `subprocess.check_call`. -/
def install_binary (py3 : Bool) (st : St) (file : String) (source_dir : PyStr)
    (install_dir : String) : Result :=
  match pyDecode py3 source_dir with
  | .error e => .raised e st
  | .ok sd => rsync_file st (pjoin sd file) install_dir file

def deleteRpathWarning : String :=
  "install_name_tool -delete_rpath command failed, assume incremental build and proceed."

def addRpathWarning : String :=
  "install_name_tool -add_rpath command failed, assume incremental build and proceed."

/-- State effect of `delete_rpath(rpath, binary, verbose)`: run the tool via
`subprocess.Popen`/`communicate` (which never raises on nonzero exit) and
print a warning when the exit status is nonzero. -/
def delete_rpath_st (st : St) (rpath binary : String) : St :=
  let r := install_name_tool_delete st.fs rpath binary
  let st1 : St := { st with fs := r.1 }
  if r.2 ≠ 0 then st1.warn deleteRpathWarning else st1

/-- `delete_rpath` itself: every control path returns normally. -/
def delete_rpath (st : St) (rpath binary : String) (verbose : Bool) : Result :=
  .ok (delete_rpath_st st rpath binary)

/-- State effect of `add_rpath(rpath, binary, verbose)`. -/
def add_rpath_st (st : St) (rpath binary : String) : St :=
  let r := install_name_tool_add st.fs rpath binary
  let st1 : St := { st with fs := r.1 }
  if r.2 ≠ 0 then st1.warn addRpathWarning else st1

/-- `add_rpath` itself: every control path returns normally. -/
def add_rpath (st : St) (rpath binary : String) (verbose : Bool) : Result :=
  .ok (add_rpath_st st rpath binary)

/-! ## The Darwin install pipeline (source lines 216-388)

The install flow is only reached on Darwin (`handle_invocation`), so
`shared_lib_ext` is `.dylib` and `macos_deployment_target` applies. -/

def shared_lib_ext : String := ".dylib"

def macos_deployment_target : String := "10.15"

/-- The per-target build subdirectory path `build_dir/target/configuration`. -/
def target_cfg_dir (build_dir target configuration : String) : String :=
  pjoin (pjoin build_dir target) configuration

/-- Rpath fixups `install_executables` applies to one executable for one
target (source lines 254-268). -/
def fixup_exe_target (st : St) (build_dir configuration exe target : String) : St :=
  let exe_bin_path := pjoin (pjoin (target_cfg_dir build_dir target configuration) "bin") exe
  let driver_lib_dir_path := pjoin (target_cfg_dir build_dir target configuration) "lib"
  let st1 := delete_rpath_st st driver_lib_dir_path exe_bin_path
  let st2 := List.foldl
    (fun s lib =>
      delete_rpath_st s
        (pjoin (pjoin (pjoin (target_cfg_dir build_dir target configuration) "dependencies") lib) "lib")
        exe_bin_path)
    st1 ["swift-tools-support-core", "swift-argument-parser"]
  add_rpath_st st2 "@executable_path/../lib/swift/macosx" exe_bin_path

def fixup_exe_targets (st : St) (build_dir configuration exe : String) : List String → St
  | [] => st
  | t :: ts => fixup_exe_targets (fixup_exe_target st build_dir configuration exe t) build_dir configuration exe ts

/-- The per-target input path of executable `exe` fed to the merge. -/
def exe_input_path (build_dir configuration exe target : String) : String :=
  pjoin (pjoin (target_cfg_dir build_dir target configuration) "bin") exe

/-- One iteration of the `for exe in [...]` loop of `install_executables`
(source lines 252-280): fixup rpaths per target, merge the per-target
binaries into one universal binary, install it. -/
def install_executable_one (py3 : Bool) (st : St)
    (build_dir configuration universal_bin_dir toolchain_bin_dir exe : String)
    (targets : List String) : Result :=
  let st1 := fixup_exe_targets st build_dir configuration exe targets
  let output_bin_path := pjoin universal_bin_dir exe
  let inputs := targets.map (exe_input_path build_dir configuration exe)
  (lipo_create st1 inputs output_bin_path).andThen fun st2 =>
    install_binary py3 st2 exe (.str universal_bin_dir) toolchain_bin_dir

/-- `install_executables(args, build_dir, universal_bin_dir, toolchain_bin_dir, targets)`. -/
def install_executables (py3 : Bool) (st : St)
    (build_dir configuration universal_bin_dir toolchain_bin_dir : String)
    (targets : List String) : Result :=
  (install_executable_one py3 st build_dir configuration universal_bin_dir
      toolchain_bin_dir "swift-driver" targets).andThen fun st1 =>
    install_executable_one py3 st1 build_dir configuration universal_bin_dir
      toolchain_bin_dir "swift-help" targets

/-- The per-target input path of shared library `lib_name` fed to the merge
(source lines 336-338). -/
def lib_input_path (build_dir package_subpath lib_name target : String) : String :=
  pjoin (pjoin (pjoin (pjoin build_dir target) package_subpath) "lib") (lib_name ++ shared_lib_ext)

/-- `install_library(args, build_dir, package_subpath, lib_name,
universal_lib_dir, toolchain_lib_dir, package_name, targets)` (source lines
330-341): merge the per-target shared libraries into one universal library
in the universal lib directory, then install it. -/
def install_library (py3 : Bool) (st : St)
    (build_dir package_subpath lib_name universal_lib_dir toolchain_lib_dir : String)
    (targets : List String) : Result :=
  let shared_lib_file := lib_name ++ shared_lib_ext
  let output_dylib_path := pjoin universal_lib_dir shared_lib_file
  let inputs := targets.map (lib_input_path build_dir package_subpath lib_name)
  (lipo_create st inputs output_dylib_path).andThen fun st1 =>
    install_binary py3 st1 shared_lib_file (.str universal_lib_dir) toolchain_lib_dir

/-- Rpath deletions at the top of `install_libraries` (source lines 284-305):
first the driver lib dir from `libSwiftDriver`/`libSwiftDriverExecution`,
then the TSC and llbuild dependency lib dirs from six libraries. -/
def fixup_libraries (st : St) (build_dir configuration : String) (targets : List String) : St :=
  let st1 := List.foldl
    (fun s lib =>
      List.foldl
        (fun s2 target =>
          delete_rpath_st s2 (pjoin (target_cfg_dir build_dir target configuration) "lib")
            (pjoin (pjoin (target_cfg_dir build_dir target configuration) "lib") (lib ++ shared_lib_ext)))
        s targets)
    st ["libSwiftDriver", "libSwiftDriverExecution"]
  let driver_libs := ["libSwiftDriver", "libSwiftOptions", "libSwiftDriverExecution"].map
    (fun d => pjoin "lib" d)
  let tsc_libs := ["libTSCBasic", "libTSCLibc", "libTSCUtility"].map
    (fun d => pjoin (pjoin (pjoin "dependencies" "swift-tools-support-core") "lib") d)
  List.foldl
    (fun s lib =>
      List.foldl
        (fun s2 target =>
          List.foldl
            (fun s3 dep =>
              delete_rpath_st s3
                (pjoin (pjoin (pjoin (target_cfg_dir build_dir target configuration) "dependencies") dep) "lib")
                (pjoin (target_cfg_dir build_dir target configuration) (lib ++ shared_lib_ext)))
            s2 ["swift-tools-support-core", "llbuild"])
        s targets)
    st1 (driver_libs ++ tsc_libs)

/-- `install_libraries(args, build_dir, universal_lib_dir, toolchain_lib_dir,
targets)` (source lines 283-327). -/
def install_libraries (py3 : Bool) (st : St)
    (build_dir configuration universal_lib_dir toolchain_lib_dir : String)
    (targets : List String) : Result :=
  let st1 := fixup_libraries st build_dir configuration targets
  let step := fun (package_subpath lib : String) (s : St) =>
    install_library py3 s build_dir package_subpath lib universal_lib_dir toolchain_lib_dir targets
  (step configuration "libSwiftDriver" st1).andThen fun s =>
  (step configuration "libSwiftOptions" s).andThen fun s =>
  (step configuration "libSwiftDriverExecution" s).andThen fun s =>
  (step (pjoin (pjoin configuration "dependencies") "swift-tools-support-core") "libTSCBasic" s).andThen fun s =>
  (step (pjoin (pjoin configuration "dependencies") "swift-tools-support-core") "libTSCLibc" s).andThen fun s =>
  (step (pjoin (pjoin configuration "dependencies") "swift-tools-support-core") "libTSCUtility" s).andThen fun s =>
  (step (pjoin (pjoin configuration "dependencies") "swift-argument-parser") "libArgumentParser" s).andThen fun s =>
  (step (pjoin (pjoin configuration "dependencies") "llbuild") "libllbuildSwift" s).andThen fun s =>
  step (pjoin (pjoin configuration "dependencies") "llbuild") "libllbuild" s

/-- The interface-file extensions handled by `install_module`. -/
def module_exts : List String := [".swiftmodule", ".swiftdoc"]

/-- One extension step of `install_module`'s inner loop (source lines
378-381): copy `module_name+ext` from the per-target build directory into
the module directory, then rename it to `target+ext`. -/
def install_module_ext (py3 : Bool) (st : St)
    (toolchain_module_dir swift_dir module_name target ext : String) : Result :=
  (install_binary py3 st (module_name ++ ext) (.str swift_dir) toolchain_module_dir).andThen fun st1 =>
    os_rename st1 (pjoin toolchain_module_dir (module_name ++ ext))
      (pjoin toolchain_module_dir (target ++ ext))

/-- The body of `install_module`'s `for target in targets` loop. -/
def install_module_target (py3 : Bool) (st : St)
    (toolchain_module_dir swift_dir module_name target : String) : Result :=
  (install_module_ext py3 st toolchain_module_dir swift_dir module_name target ".swiftmodule").andThen
    fun st1 => install_module_ext py3 st1 toolchain_module_dir swift_dir module_name target ".swiftdoc"

def install_module_go (py3 : Bool) (st : St)
    (build_dir package_subpath toolchain_module_dir module_name : String) :
    List String → Result
  | [] => .ok st
  | t :: ts =>
    (install_module_target py3 st toolchain_module_dir
        (pjoin (pjoin build_dir t) package_subpath) module_name t).andThen fun st1 =>
      install_module_go py3 st1 build_dir package_subpath toolchain_module_dir module_name ts

/-- `install_module(args, build_dir, package_subpath, toolchain_lib,
module_name, targets)` (source lines 372-381). -/
def install_module (py3 : Bool) (st : St)
    (build_dir package_subpath toolchain_lib module_name : String)
    (targets : List String) : Result :=
  install_module_go py3 st build_dir package_subpath
    (pjoin toolchain_lib (module_name ++ ".swiftmodule")) module_name targets

/-- `install_binary_swift_modules` (source lines 344-362). -/
def install_binary_swift_modules (py3 : Bool) (st : St)
    (build_dir configuration toolchain_lib_dir : String) (targets : List String) : Result :=
  let driver_subpath := pjoin configuration "swift"
  let tsc_subpath := pjoin (pjoin (pjoin configuration "dependencies") "swift-tools-support-core") "swift"
  let parser_subpath := pjoin (pjoin (pjoin configuration "dependencies") "swift-argument-parser") "swift"
  (install_module py3 st build_dir driver_subpath toolchain_lib_dir "SwiftDriver" targets).andThen fun s =>
  (install_module py3 s build_dir driver_subpath toolchain_lib_dir "SwiftOptions" targets).andThen fun s =>
  (install_module py3 s build_dir tsc_subpath toolchain_lib_dir "TSCUtility" targets).andThen fun s =>
  (install_module py3 s build_dir tsc_subpath toolchain_lib_dir "TSCLibc" targets).andThen fun s =>
  (install_module py3 s build_dir tsc_subpath toolchain_lib_dir "TSCBasic" targets).andThen fun s =>
  install_module py3 s build_dir parser_subpath toolchain_lib_dir "ArgumentParser" targets

/-- `os.path.dirname`: everything before the final path separator. -/
def dirname (p : String) : String :=
  joinSep "/" (((splitChar '/' p.data).map String.mk).dropLast)

/-- `shutil.copytree` preceded by `shutil.rmtree(ignore_errors=True)`
(source lines 384-388); an include tree is modelled as a single filesystem
entry at the directory's path.  `copytree` raises when the source is
absent. -/
def install_include_artifacts (st : St) (toolchain_include_dir src_include_dir dst_module_name : String) : Result :=
  let dst := pjoin toolchain_include_dir dst_module_name
  match fsRead st.fs src_include_dir with
  | none => .raised .osError { st with fs := fsErase st.fs dst }
  | some d => .ok { st with fs := fsWrite (fsErase st.fs dst) dst d }

/-- `install_c_module_includes` (source lines 366-370). -/
def install_c_module_includes (st : St) (package_path toolchain_include_dir : String) : Result :=
  install_include_artifacts st toolchain_include_dir
    (pjoin (pjoin (pjoin (pjoin (dirname package_path) "swift-tools-support-core") "Sources") "TSCclibc") "include")
    "TSCclibc"

/-- The target-independent universal output directory
`build_dir/universal-apple-macos10.15` (source line 226). -/
def universal_dir_of (build_dir : String) : String :=
  pjoin build_dir ("universal-apple-macos" ++ macos_deployment_target)

/-- `install_swiftdriver(args, build_dir, prefix, targets)` (source lines
222-247).  Note: all paths under `universal_dir_of build_dir` are computed
from `build_dir` alone — the installation prefix `pref` only determines the
final copy destinations. -/
def install_swiftdriver (py3 : Bool) (st : St)
    (build_dir configuration package_path pref : String) (targets : List String) : Result :=
  let install_bin := pjoin pref "bin"
  let install_lib := pjoin (pjoin (pjoin pref "lib") "swift") "macosx"
  let install_include := pjoin (pjoin pref "include") "swift"
  let universal_dir := universal_dir_of build_dir
  let bin_dir := pjoin universal_dir "bin"
  let lib_dir := pjoin universal_dir "lib"
  (install_executables py3 st build_dir configuration bin_dir install_bin targets).andThen fun s =>
  (install_libraries py3 s build_dir configuration lib_dir install_lib targets).andThen fun s =>
  (install_binary_swift_modules py3 s build_dir configuration install_lib targets).andThen fun s =>
  install_c_module_includes s package_path install_include

/-- The `for prefix in args.install_prefixes` loop of `install` (source
lines 216-220): one repetition per prefix, threaded over one shared state. -/
def install_loop (py3 : Bool) (build_dir configuration package_path : String)
    (targets : List String) : List String → St → Result
  | [], st => .ok st
  | p :: ps, st =>
    (install_swiftdriver py3 st build_dir configuration package_path p targets).andThen
      (install_loop py3 build_dir configuration package_path targets ps)

/-- `install(args, build_dir, targets)` (source lines 216-220). -/
def install (py3 : Bool) (st : St) (build_dir configuration package_path : String)
    (install_prefixes targets : List String) : Result :=
  install_loop py3 build_dir configuration package_path targets install_prefixes st

/-- `non_darwin_install(swiftpm_bin_path, toolchain, verbose)` (source lines
211-214); `swiftpm_bin_path` is the stripped output of
`subprocess.check_output`, a byte string under Python 3. -/
def non_darwin_install (py3 : Bool) (st : St) (swiftpm_bin : PyStr) (toolchain : String) : Result :=
  let toolchain_bin := pjoin toolchain "bin"
  (install_binary py3 st "swift-driver" swiftpm_bin toolchain_bin).andThen fun s =>
    install_binary py3 s "swift-help" swiftpm_bin toolchain_bin

/-! ## The CMake build pipeline (source lines 390-549)

`build_using_cmake` loops over the resolved targets; for each target it
configures and builds, in source order, llbuild, TSC, ArgumentParser, Yams
and the driver package itself.  The embedding records each
configure-and-build step as a `CMakeInvocation` trace element. -/

/-- The command-line arguments the build functions consult. -/
structure Args where
  package_path : String
  build_path : String
  configuration : String
  sysroot : Option String
  dispatch_build_dir : Option String
  foundation_build_dir : Option String
  verbose : Bool
deriving DecidableEq, Repr

inductive Package where
  | llbuild
  | tsc
  | argumentParser
  | yams
  | swiftDriver
deriving DecidableEq, Repr

/-- One `cmake_build` call: which package, for which target, configured in
which build directory with which flags, and the optional restricted ninja
target. -/
structure CMakeInvocation where
  pkg : Package
  target : String
  source_dir : String
  build_dir : String
  cmake_flags : List String
  swift_flags : List String
  ninja_target : Option String
deriving DecidableEq, Repr

/-- `cmake_build` (source lines 512-527) appends `-sdk <sysroot>` to the
swift flags it was handed before configuring. -/
def cmake_build_swift_flags (args : Args) (swift_flags : List String) : List String :=
  match args.sysroot with
  | some s => swift_flags ++ ["-sdk " ++ s]
  | none => swift_flags

/-- `build_llbuild_using_cmake` (source lines 427-453). -/
def build_llbuild_using_cmake (args : Args) (isDarwin : Bool) (target build_dir : String)
    (base_cmake_flags swift_flags : List String) : CMakeInvocation :=
  let llbuild_source_dir := pjoin (dirname args.package_path) "llbuild"
  let llbuild_build_dir := pjoin build_dir "llbuild"
  let flags := ["-DCMAKE_C_COMPILER:=clang", "-DCMAKE_CXX_COMPILER:=clang++",
    "-DCMAKE_CXX_FLAGS=-target " ++ target, "-DLLBUILD_SUPPORT_BINDINGS:=Swift"]
  let flags := if isDarwin then
      flags ++ ["-DCMAKE_OSX_ARCHITECTURES=" ++ String.mk ((splitChar '-' target.data).headD [])]
    else flags
  let llbuild_cmake_flags := base_cmake_flags ++ flags
  let llbuild_cmake_flags :=
    match args.sysroot with
    | some s =>
      let fs1 := llbuild_cmake_flags ++ ["-DSQLite3_INCLUDE_DIR=" ++ s ++ "/usr/include"]
      if isDarwin then fs1 ++ ["-DSQLite3_LIBRARY=" ++ s ++ "/usr/lib/libsqlite3.tbd"] else fs1
    | none => llbuild_cmake_flags
  { pkg := .llbuild, target := target, source_dir := llbuild_source_dir,
    build_dir := llbuild_build_dir, cmake_flags := llbuild_cmake_flags,
    swift_flags := cmake_build_swift_flags args swift_flags,
    ninja_target := some "products/all" }

/-- `build_tsc_using_cmake` (source lines 455-461). -/
def build_tsc_using_cmake (args : Args) (isDarwin : Bool) (target build_dir : String)
    (base_cmake_flags swift_flags : List String) : CMakeInvocation :=
  { pkg := .tsc, target := target,
    source_dir := pjoin (dirname args.package_path) "swift-tools-support-core",
    build_dir := pjoin build_dir "swift-tools-support-core",
    cmake_flags := base_cmake_flags,
    swift_flags := cmake_build_swift_flags args swift_flags,
    ninja_target := none }

/-- `build_argument_parser_using_cmake` (source lines 485-494). -/
def build_argument_parser_using_cmake (args : Args) (isDarwin : Bool) (target build_dir : String)
    (base_cmake_flags swift_flags : List String) : CMakeInvocation :=
  { pkg := .argumentParser, target := target,
    source_dir := pjoin (dirname args.package_path) "swift-argument-parser",
    build_dir := pjoin build_dir "swift-argument-parser",
    cmake_flags := base_cmake_flags ++ ["-DBUILD_TESTING=NO", "-DBUILD_EXAMPLES=NO"],
    swift_flags := cmake_build_swift_flags args swift_flags,
    ninja_target := none }

/-- `build_yams_using_cmake` (source lines 463-483). -/
def build_yams_using_cmake (args : Args) (isDarwin : Bool) (target build_dir : String)
    (base_cmake_flags swift_flags : List String) : CMakeInvocation :=
  let yams_cmake_flags := base_cmake_flags ++ ["-DCMAKE_C_COMPILER:=clang", "-DBUILD_SHARED_LIBS=OFF"]
  let yams_cmake_flags :=
    if isDarwin then
      yams_cmake_flags ++ ["-DCMAKE_OSX_DEPLOYMENT_TARGET=" ++ macos_deployment_target,
        "-DCMAKE_C_FLAGS=-target " ++ target]
    else
      let fs1 := yams_cmake_flags ++ ["-DCMAKE_C_FLAGS=-fPIC -target " ++ target]
      let fs2 := match args.dispatch_build_dir with
        | some d => fs1 ++ ["-Ddispatch_DIR=" ++ pjoin d "cmake/modules"]
        | none => fs1
      match args.foundation_build_dir with
      | some d => fs2 ++ ["-DFoundation_DIR=" ++ pjoin d "cmake/modules"]
      | none => fs2
  { pkg := .yams, target := target,
    source_dir := pjoin (dirname args.package_path) "yams",
    build_dir := pjoin build_dir "yams",
    cmake_flags := yams_cmake_flags,
    swift_flags := cmake_build_swift_flags args swift_flags,
    ninja_target := none }

/-- `build_swift_driver_using_cmake` (source lines 496-510): the only build
step whose configure invocation carries `_DIR` location hints, pointing at
the llbuild, TSC, Yams and ArgumentParser build directories of the same
target. -/
def build_swift_driver_using_cmake (args : Args) (isDarwin : Bool) (target build_dir : String)
    (base_cmake_flags swift_flags : List String) : CMakeInvocation :=
  let dependencies_dir := pjoin build_dir "dependencies"
  let flags := [
    "-DLLBuild_DIR=" ++ pjoin (pjoin dependencies_dir "llbuild") "cmake/modules",
    "-DTSC_DIR=" ++ pjoin (pjoin dependencies_dir "swift-tools-support-core") "cmake/modules",
    "-DYams_DIR=" ++ pjoin (pjoin dependencies_dir "yams") "cmake/modules",
    "-DArgumentParser_DIR=" ++ pjoin (pjoin dependencies_dir "swift-argument-parser") "cmake/modules"]
  { pkg := .swiftDriver, target := target,
    source_dir := args.package_path,
    build_dir := build_dir,
    cmake_flags := base_cmake_flags ++ flags,
    swift_flags := cmake_build_swift_flags args swift_flags,
    ninja_target := none }

/-- The body of `build_using_cmake`'s per-target loop (source lines
406-425): the five configure-and-build steps in source order. -/
def build_for_target (args : Args) (isDarwin : Bool) (target : String)
    (base_cmake_flags swift_flags : List String) : List CMakeInvocation :=
  let driver_dir := pjoin (pjoin args.build_path target) args.configuration
  let dependencies_dir := pjoin driver_dir "dependencies"
  [build_llbuild_using_cmake args isDarwin target dependencies_dir base_cmake_flags swift_flags,
   build_tsc_using_cmake args isDarwin target dependencies_dir base_cmake_flags swift_flags,
   build_argument_parser_using_cmake args isDarwin target dependencies_dir base_cmake_flags swift_flags,
   build_yams_using_cmake args isDarwin target dependencies_dir base_cmake_flags swift_flags,
   build_swift_driver_using_cmake args isDarwin target driver_dir base_cmake_flags swift_flags]

/-- The `for target in targets` loop of `build_using_cmake`: the source
appends to `swift_flags` and `base_cmake_flags` in place on every
iteration, so the accumulated lists are threaded through. -/
def build_using_cmake_go (args : Args) (isDarwin : Bool)
    (swift_flags base_cmake_flags : List String) : List String → List CMakeInvocation
  | [] => []
  | t :: ts =>
    let swift_flags := swift_flags ++ ["-target " ++ t]
    let base_cmake_flags :=
      if isDarwin then
        base_cmake_flags ++ ["-DCMAKE_OSX_DEPLOYMENT_TARGET=" ++ macos_deployment_target]
      else base_cmake_flags
    build_for_target args isDarwin t base_cmake_flags swift_flags ++
      build_using_cmake_go args isDarwin swift_flags base_cmake_flags ts

/-- `build_using_cmake(args, toolchain_bin, build_dir, targets)` (source
lines 390-425), as the trace of configure-and-build steps it performs. -/
def build_using_cmake (args : Args) (isDarwin : Bool) (targets : List String) : List CMakeInvocation :=
  let swift_flags := if args.configuration = "debug" then ["-Onone", "-DDEBUG"] else []
  let swift_flags := swift_flags ++
    ["-module-cache-path \"" ++ pjoin args.build_path "module-cache" ++ "\""]
  build_using_cmake_go args isDarwin swift_flags [] targets

/-! ## Target resolution (source lines 153-165, 551-560, 609-615) -/

def listPrefix : List Char → List Char → Bool
  | [], _ => true
  | _ :: _, [] => false
  | a :: as, b :: bs => a = b && listPrefix as bs

def listInfix (sub : List Char) : List Char → Bool
  | [] => sub.isEmpty
  | b :: bs => listPrefix sub (b :: bs) || listInfix sub bs

/-- Python's substring test `sub in s`. -/
def strContains (s sub : String) : Bool :=
  listInfix sub.data s.data

/-- The parse of the compiler's `-print-target-info` output that
`get_build_target` performs. -/
structure TargetInfo where
  unversionedTriple : Option String
deriving DecidableEq, Repr

/-- Outcome of the `swiftc -print-target-info` query: the call itself can
raise, its output can fail to parse as JSON, and the parsed JSON can lack
the `target.unversionedTriple` field. -/
inductive QueryOutcome where
  | callFailed
  | unparsable
  | parsed (info : TargetInfo)
deriving DecidableEq, Repr

/-- `get_build_target(swiftc_path, args)` (source lines 551-560): any
exception is routed through `error(...)`, which prints a prefixed error line
and raises `SystemExit(1)`. -/
def get_build_target (q : QueryOutcome) : Except PyExc String :=
  match q with
  | .callFailed => .error (.systemExit 1)
  | .unparsable => .error (.systemExit 1)
  | .parsed info =>
    match info.unversionedTriple with
    | none => .error (.systemExit 1)
    | some t => .ok t

/-- Target resolution at the top of `handle_invocation` (source lines
160-165). -/
def resolve_targets (isDarwin : Bool) (cross_compile_hosts : List String)
    (q : QueryOutcome) : Except PyExc (List String) :=
  if cross_compile_hosts ≠ [] then .ok cross_compile_hosts
  else
    match get_build_target q with
    | .error e => .error e
    | .ok t => .ok (if isDarwin then [t ++ macos_deployment_target] else [t])

/-! ## General lemmas about the model -/

theorem string_eq_of_data_eq {a b : String} (h : a.data = b.data) : a = b := by
  cases a; cases b; exact congrArg String.mk h

theorem append_right_cancel_str {x y e : String} (h : x ++ e = y ++ e) : x = y := by
  apply string_eq_of_data_eq
  have hd : x.data ++ e.data = y.data ++ e.data := by
    rw [← String.data_append, ← String.data_append, h]
  exact List.append_cancel_right hd

theorem pjoin_right_inj {d x y : String} (h : pjoin d x = pjoin d y) : x = y := by
  apply string_eq_of_data_eq
  have hd : (d ++ "/").data ++ x.data = (d ++ "/").data ++ y.data := by
    rw [← String.data_append, ← String.data_append]
    exact congrArg String.data h
  exact List.append_cancel_left hd

theorem pjoin_ne_of_ne {d : String} {x y : String} (h : x ≠ y) : pjoin d x ≠ pjoin d y :=
  fun he => h (pjoin_right_inj he)

/-- Two strings with suffixes ending in different characters are distinct. -/
theorem append_ne_of_last_ne {x y e1 e2 : String} {c1 c2 : Char}
    (h1 : e1.data.getLast? = some c1) (h2 : e2.data.getLast? = some c2)
    (hc : c1 ≠ c2) : x ++ e1 ≠ y ++ e2 := by
  intro he
  have hd : x.data ++ e1.data = y.data ++ e2.data := by
    rw [← String.data_append, ← String.data_append, he]
  have hne1 : e1.data ≠ [] := by intro hnil; rw [hnil] at h1; simp at h1
  have hne2 : e2.data ≠ [] := by intro hnil; rw [hnil] at h2; simp at h2
  have hl : (x.data ++ e1.data).getLast? = (y.data ++ e2.data).getLast? := by rw [hd]
  rw [List.getLast?_append_of_ne_nil _ hne1, List.getLast?_append_of_ne_nil _ hne2] at hl
  rw [h1, h2] at hl
  exact hc (Option.some.injEq .. ▸ hl ▸ rfl)

/-- The cross-compile validation in `main` (source lines 614-615), followed
by target resolution and the build action: validation failure raises
`SystemExit(1)` before any build step runs, so the error case carries no
build trace. -/
def main_build (args : Args) (isDarwin : Bool) (cross_compile_hosts : List String)
    (q : QueryOutcome) : Except PyExc (List String × List CMakeInvocation) :=
  if cross_compile_hosts ≠ [] ∧
      ¬ (cross_compile_hosts.all (fun t => strContains t "apple-macos")) then
    .error (.systemExit 1)
  else
    match resolve_targets isDarwin cross_compile_hosts q with
    | .error e => .error e
    | .ok targets => .ok (targets, build_using_cmake args isDarwin targets)

/-! ## Claim C3 -/

/-- Claim C3: for every rpath string and every binary path, the two
best-effort search-path edits `delete_rpath` and `add_rpath` return normally
— they never raise — regardless of the metadata tool's exit status (the
universally quantified state determines every possible exit status); on
nonzero exit each appends its warning line and continues, so a delete
followed by an add never escalates to a fatal build failure. -/
theorem rpath_edits_never_raise (st : St) (rpath binary : String) (verbose : Bool) :
    (delete_rpath st rpath binary verbose).isOk = true ∧
    (∀ rpath2 binary2,
      ((delete_rpath st rpath binary verbose).andThen
        (fun s => add_rpath s rpath2 binary2 verbose)).isOk = true) ∧
    ((install_name_tool_delete st.fs rpath binary).2 ≠ 0 →
      (Result.st (delete_rpath st rpath binary verbose)).log = st.log ++ [deleteRpathWarning]) ∧
    (∀ st2 : St, (install_name_tool_add st2.fs rpath binary).2 ≠ 0 →
      (Result.st (add_rpath st2 rpath binary verbose)).log = st2.log ++ [addRpathWarning]) := by
  refine ⟨rfl, fun _ _ => rfl, fun h => ?_, fun st2 h => ?_⟩
  · simp [delete_rpath, Result.st, delete_rpath_st, h, St.warn]
  · simp [add_rpath, Result.st, add_rpath_st, h, St.warn]

/-- Witness for C3: on an empty filesystem the tool exits nonzero for both
edits, and both calls return normally with the warning logged. -/
theorem rpath_edits_never_raise_witness :
    (delete_rpath { fs := [], log := [] } "/b/lib" "/b/bin/e" false).isOk = true ∧
    (Result.st (delete_rpath { fs := [], log := [] } "/b/lib" "/b/bin/e" false)).log
      = [deleteRpathWarning] ∧
    (Result.st (add_rpath { fs := [], log := [] } "/b/lib" "/b/bin/e" false)).log
      = [addRpathWarning] := by
  have h := rpath_edits_never_raise { fs := [], log := [] } "/b/lib" "/b/bin/e" false
  exact ⟨h.1, by simpa using h.2.2.1 (by decide),
    by simpa using h.2.2.2 { fs := [], log := [] } (by decide)⟩

/-! ## Claim C7 -/

/-- Claim C7: if the explicit cross-compile target list is non-empty and
some entry does not contain `apple-macos`, `main` fails with the
unsupported-cross-compile error (`SystemExit` with status 1, nonzero)
before performing any build step (the error outcome carries no build
trace); if every entry contains it, the resolved target list is exactly the
supplied list. -/
theorem cross_compile_validation (args : Args) (isDarwin : Bool)
    (hosts : List String) (q : QueryOutcome) :
    (∀ t ∈ hosts, strContains t "apple-macos" = false →
      main_build args isDarwin hosts q = .error (.systemExit 1)) ∧
    (hosts ≠ [] → (∀ t ∈ hosts, strContains t "apple-macos" = true) →
      main_build args isDarwin hosts q = .ok (hosts, build_using_cmake args isDarwin hosts)) := by
  constructor
  · intro t ht hbad
    have hne : hosts ≠ [] := by intro he; rw [he] at ht; simp at ht
    have hall : ¬ (hosts.all (fun s => strContains s "apple-macos")) := by
      simp only [List.all_eq_true, Bool.not_eq_true]
      intro hforall
      have := hforall t ht
      rw [hbad] at this
      exact Bool.false_ne_true this
    simp [main_build, hne, hall]
  · intro hne hgood
    have hall : hosts.all (fun s => strContains s "apple-macos") = true := by
      rw [List.all_eq_true]; exact hgood
    simp [main_build, hne, hall, resolve_targets]

/-- A concrete set of command-line arguments used by concrete instances. -/
def sampleArgs : Args where
  package_path := "/s/swift-driver"
  build_path := "/b"
  configuration := "release"
  sysroot := none
  dispatch_build_dir := none
  foundation_build_dir := none
  verbose := false

/-- Witness for C7: with targets `["arm64-apple-macos10.15", "x-linux-gnu"]`
validation fails with exit status 1; with both entries containing
`apple-macos` the resolved list is exactly the supplied one. -/
theorem cross_compile_validation_witness :
    main_build sampleArgs true
      ["arm64-apple-macos10.15", "x-linux-gnu"] .callFailed = .error (.systemExit 1) ∧
    (∃ trace, main_build sampleArgs true
      ["arm64-apple-macos10.15", "x86_64-apple-macos10.15"] .callFailed =
        .ok (["arm64-apple-macos10.15", "x86_64-apple-macos10.15"], trace)) := by
  constructor
  · exact (cross_compile_validation sampleArgs true _ .callFailed).1 "x-linux-gnu"
      (by decide) (by decide)
  · exact ⟨_, (cross_compile_validation sampleArgs true _ .callFailed).2
      (by decide) (by decide)⟩

/-! ## Claim C8 -/

/-- Claim C8: with no explicit cross-compile targets, target resolution
yields exactly one target — the compiler-reported unversioned host triple,
with the configured minimum-macOS version `10.15` appended on Darwin — and
if the compiler query fails or its output is unparsable the script
terminates via `error(...)`, i.e. `SystemExit` with exit status 1. -/
theorem host_target_resolution (isDarwin : Bool) (q : QueryOutcome) :
    (∀ t, q = .parsed { unversionedTriple := some t } →
      resolve_targets isDarwin [] q =
        .ok [if isDarwin then t ++ macos_deployment_target else t]) ∧
    ((q = .callFailed ∨ q = .unparsable ∨ q = .parsed { unversionedTriple := none }) →
      resolve_targets isDarwin [] q = .error (.systemExit 1)) := by
  constructor
  · intro t hq
    subst hq
    cases isDarwin <;> simp [resolve_targets, get_build_target]
  · rintro (hq | hq | hq) <;> subst hq <;> simp [resolve_targets, get_build_target]

/-- Witness for C8: a successful query for `arm64-apple-macosx` resolves to
the single target `arm64-apple-macosx10.15` on Darwin, and a failed query
exits with status 1. -/
theorem host_target_resolution_witness :
    resolve_targets true [] (.parsed { unversionedTriple := some "arm64-apple-macosx" }) =
      .ok ["arm64-apple-macosx10.15"] ∧
    resolve_targets true [] .callFailed = .error (.systemExit 1) := by
  constructor
  · have h := (host_target_resolution true
      (.parsed { unversionedTriple := some "arm64-apple-macosx" })).1
      "arm64-apple-macosx" rfl
    simpa [macos_deployment_target] using h
  · exact (host_target_resolution true .callFailed).2 (Or.inl rfl)

/-! ## Claim C5 -/

theorem build_using_cmake_go_map (args : Args) (isDarwin : Bool) :
    ∀ (targets : List String) (sf bf : List String),
      (build_using_cmake_go args isDarwin sf bf targets).map (fun i => (i.target, i.pkg)) =
        targets.flatMap (fun t => [(t, Package.llbuild), (t, Package.tsc),
          (t, Package.argumentParser), (t, Package.yams), (t, Package.swiftDriver)]) := by
  intro targets
  induction targets with
  | nil => intro sf bf; simp [build_using_cmake_go]
  | cons t ts ih =>
    intro sf bf
    simp only [build_using_cmake_go, List.map_append, List.flatMap_cons, ih]
    simp [build_for_target, build_llbuild_using_cmake, build_tsc_using_cmake,
      build_argument_parser_using_cmake, build_yams_using_cmake,
      build_swift_driver_using_cmake]

/-- Counterexample to claim C5 as stated: for a concrete configuration and
target, the build action's per-target package sequence is llbuild, TSC,
ArgumentParser, Yams, driver — not the claimed llbuild, TSC, Yams,
ArgumentParser, driver: Yams is built after ArgumentParser, so with the
claim's ordering Yams's successor ArgumentParser is built before its
predecessor. -/
theorem build_package_order_counterexample :
    ((build_using_cmake sampleArgs true ["arm64-apple-macos10.15"]).map
        (fun i => i.pkg) =
      [Package.llbuild, Package.tsc, Package.argumentParser, Package.yams,
        Package.swiftDriver]) ∧
    ((build_using_cmake sampleArgs true ["arm64-apple-macos10.15"]).map
        (fun i => i.pkg) ≠
      [Package.llbuild, Package.tsc, Package.yams, Package.argumentParser,
        Package.swiftDriver]) := by
  constructor
  · decide
  · decide

/-- Claim C5 as amended: for each resolved target, in input order, the build
action builds the fixed sub-package list llbuild, then TSC, then
ArgumentParser, then Yams, then the driver package itself, with no package
built before its predecessors for that target. -/
theorem build_package_order (args : Args) (isDarwin : Bool) (targets : List String) :
    (build_using_cmake args isDarwin targets).map (fun i => (i.target, i.pkg)) =
      targets.flatMap (fun t => [(t, Package.llbuild), (t, Package.tsc),
        (t, Package.argumentParser), (t, Package.yams), (t, Package.swiftDriver)]) := by
  simpa [build_using_cmake] using
    build_using_cmake_go_map args isDarwin targets _ _

/-! ## Claim C6 -/

/-- Counterexample to claim C6 as stated: in a concrete build, TSC is built
for the target after llbuild, yet its configuration invocation receives no
flag that even mentions `llbuild` — in particular no directory location
hint pointing to the llbuild package already built for the same target. -/
theorem dependency_hints_counterexample :
    ((build_using_cmake sampleArgs true ["arm64-apple-macos10.15"]).map
        (fun i => i.pkg) =
      [Package.llbuild, Package.tsc, Package.argumentParser, Package.yams,
        Package.swiftDriver]) ∧
    (∀ inv ∈ build_using_cmake sampleArgs true ["arm64-apple-macos10.15"],
      inv.pkg = Package.tsc →
        inv.cmake_flags.all (fun f => ! strContains f "llbuild") = true) := by
  constructor
  · decide
  · decide

/-- Claim C6 as amended: for each target, only the final driver package's
configuration invocation receives directory location hints, and it receives
one for each of the four sub-packages built earlier for that same target
(pointing into that package's build directory); the intermediate
sub-packages receive no hints to earlier packages — TSC receives exactly
the shared base flags and ArgumentParser only its own testing/example
switches. -/
theorem dependency_hints (args : Args) (isDarwin : Bool) (t : String)
    (base swift : List String) :
    (build_for_target args isDarwin t base swift =
      [build_llbuild_using_cmake args isDarwin t
          (pjoin (pjoin (pjoin args.build_path t) args.configuration) "dependencies") base swift,
        build_tsc_using_cmake args isDarwin t
          (pjoin (pjoin (pjoin args.build_path t) args.configuration) "dependencies") base swift,
        build_argument_parser_using_cmake args isDarwin t
          (pjoin (pjoin (pjoin args.build_path t) args.configuration) "dependencies") base swift,
        build_yams_using_cmake args isDarwin t
          (pjoin (pjoin (pjoin args.build_path t) args.configuration) "dependencies") base swift,
        build_swift_driver_using_cmake args isDarwin t
          (pjoin (pjoin args.build_path t) args.configuration) base swift]) ∧
    ("-DLLBuild_DIR=" ++ pjoin (build_llbuild_using_cmake args isDarwin t
          (pjoin (pjoin (pjoin args.build_path t) args.configuration) "dependencies") base swift).build_dir
        "cmake/modules" ∈
      (build_swift_driver_using_cmake args isDarwin t
        (pjoin (pjoin args.build_path t) args.configuration) base swift).cmake_flags) ∧
    ("-DTSC_DIR=" ++ pjoin (build_tsc_using_cmake args isDarwin t
          (pjoin (pjoin (pjoin args.build_path t) args.configuration) "dependencies") base swift).build_dir
        "cmake/modules" ∈
      (build_swift_driver_using_cmake args isDarwin t
        (pjoin (pjoin args.build_path t) args.configuration) base swift).cmake_flags) ∧
    ("-DYams_DIR=" ++ pjoin (build_yams_using_cmake args isDarwin t
          (pjoin (pjoin (pjoin args.build_path t) args.configuration) "dependencies") base swift).build_dir
        "cmake/modules" ∈
      (build_swift_driver_using_cmake args isDarwin t
        (pjoin (pjoin args.build_path t) args.configuration) base swift).cmake_flags) ∧
    ("-DArgumentParser_DIR=" ++ pjoin (build_argument_parser_using_cmake args isDarwin t
          (pjoin (pjoin (pjoin args.build_path t) args.configuration) "dependencies") base swift).build_dir
        "cmake/modules" ∈
      (build_swift_driver_using_cmake args isDarwin t
        (pjoin (pjoin args.build_path t) args.configuration) base swift).cmake_flags) ∧
    ((build_tsc_using_cmake args isDarwin t
        (pjoin (pjoin (pjoin args.build_path t) args.configuration) "dependencies") base swift).cmake_flags
      = base) ∧
    ((build_argument_parser_using_cmake args isDarwin t
        (pjoin (pjoin (pjoin args.build_path t) args.configuration) "dependencies") base swift).cmake_flags
      = base ++ ["-DBUILD_TESTING=NO", "-DBUILD_EXAMPLES=NO"]) := by
  refine ⟨rfl, ?_, ?_, ?_, ?_, rfl, rfl⟩ <;>
    simp [build_swift_driver_using_cmake, build_llbuild_using_cmake,
      build_tsc_using_cmake, build_yams_using_cmake,
      build_argument_parser_using_cmake, pjoin]

/-! ## Absence-preservation lemmas: the rpath fixups never create files. -/

theorem install_name_tool_delete_none {fs : FS} {q : String} (r b : String)
    (h : fsRead fs q = none) : fsRead (install_name_tool_delete fs r b).1 q = none := by
  unfold install_name_tool_delete
  cases hb : fsRead fs b with
  | none => simpa using h
  | some d =>
    have hqb : q ≠ b := by
      intro he; rw [he, hb] at h; exact Option.noConfusion h
    by_cases hr : r ∈ d.rpaths
    · simpa [hr, fsRead_fsWrite_ne fs b q _ hqb] using h
    · simpa [hr] using h

theorem install_name_tool_add_none {fs : FS} {q : String} (r b : String)
    (h : fsRead fs q = none) : fsRead (install_name_tool_add fs r b).1 q = none := by
  unfold install_name_tool_add
  cases hb : fsRead fs b with
  | none => simpa using h
  | some d =>
    have hqb : q ≠ b := by
      intro he; rw [he, hb] at h; exact Option.noConfusion h
    by_cases hr : r ∈ d.rpaths
    · simpa [hr] using h
    · simpa [hr, fsRead_fsWrite_ne fs b q _ hqb] using h

theorem delete_rpath_st_fs (st : St) (r b : String) :
    (delete_rpath_st st r b).fs = (install_name_tool_delete st.fs r b).1 := by
  by_cases h : (install_name_tool_delete st.fs r b).2 ≠ 0 <;>
    simp [delete_rpath_st, h, St.warn]

theorem add_rpath_st_fs (st : St) (r b : String) :
    (add_rpath_st st r b).fs = (install_name_tool_add st.fs r b).1 := by
  by_cases h : (install_name_tool_add st.fs r b).2 ≠ 0 <;>
    simp [add_rpath_st, h, St.warn]

theorem delete_rpath_st_none {st : St} {q : String} (r b : String)
    (h : fsRead st.fs q = none) : fsRead (delete_rpath_st st r b).fs q = none := by
  rw [delete_rpath_st_fs]
  exact install_name_tool_delete_none r b h

theorem add_rpath_st_none {st : St} {q : String} (r b : String)
    (h : fsRead st.fs q = none) : fsRead (add_rpath_st st r b).fs q = none := by
  rw [add_rpath_st_fs]
  exact install_name_tool_add_none r b h

theorem fixup_exe_target_none {st : St} {q : String}
    (build_dir configuration exe t : String) (h : fsRead st.fs q = none) :
    fsRead (fixup_exe_target st build_dir configuration exe t).fs q = none := by
  unfold fixup_exe_target
  simp only [List.foldl_cons, List.foldl_nil]
  exact add_rpath_st_none _ _ (delete_rpath_st_none _ _ (delete_rpath_st_none _ _
    (delete_rpath_st_none _ _ h)))

theorem fixup_exe_targets_none {st : St} {q : String}
    (build_dir configuration exe : String) (targets : List String)
    (h : fsRead st.fs q = none) :
    fsRead (fixup_exe_targets st build_dir configuration exe targets).fs q = none := by
  induction targets generalizing st with
  | nil => exact h
  | cons t ts ih =>
    exact ih (fixup_exe_target_none build_dir configuration exe t h)

theorem readAll_eq_none {fs : FS} {ps : List String} {p : String}
    (hp : p ∈ ps) (h : fsRead fs p = none) : readAll fs ps = none := by
  induction ps with
  | nil => cases hp
  | cons x xs ih =>
    unfold readAll
    rcases List.mem_cons.1 hp with hx | hx
    · subst hx
      rw [h]
    · rw [ih hx]
      cases fsRead fs x <;> rfl

/-! ## Claim C1 -/

/-- Claim C1: for every executable or shared-library artifact and every
non-empty target list (witnessed by a member `t`), if that target's input
file for the artifact is absent, the merge step fails — the merge tool exits
nonzero and `subprocess.check_call` raises, aborting the pipeline — and the
universal output file is not produced (absent before, still absent in the
state at the raise). -/
theorem merge_fails_closed (py3 : Bool) (st : St)
    (build_dir configuration package_subpath universal_bin_dir universal_lib_dir
      toolchain_bin_dir toolchain_lib_dir exe lib_name t : String)
    (targets : List String) (ht : t ∈ targets) :
    (fsRead st.fs (exe_input_path build_dir configuration exe t) = none →
      fsRead st.fs (pjoin universal_bin_dir exe) = none →
      install_executable_one py3 st build_dir configuration universal_bin_dir
          toolchain_bin_dir exe targets =
        .raised .calledProcessError (fixup_exe_targets st build_dir configuration exe targets) ∧
      fsRead (fixup_exe_targets st build_dir configuration exe targets).fs
        (pjoin universal_bin_dir exe) = none) ∧
    (fsRead st.fs (lib_input_path build_dir package_subpath lib_name t) = none →
      install_library py3 st build_dir package_subpath lib_name universal_lib_dir
          toolchain_lib_dir targets = .raised .calledProcessError st) := by
  constructor
  · intro hin hout
    have hin1 : fsRead (fixup_exe_targets st build_dir configuration exe targets).fs
        (exe_input_path build_dir configuration exe t) = none :=
      fixup_exe_targets_none build_dir configuration exe targets hin
    have hmem : exe_input_path build_dir configuration exe t ∈
        targets.map (exe_input_path build_dir configuration exe) :=
      List.mem_map_of_mem _ ht
    have hnone := readAll_eq_none hmem hin1
    constructor
    · unfold install_executable_one
      simp [lipo_create, hnone, Result.andThen]
    · exact fixup_exe_targets_none build_dir configuration exe targets hout
  · intro hin
    have hmem : lib_input_path build_dir package_subpath lib_name t ∈
        targets.map (lib_input_path build_dir package_subpath lib_name) :=
      List.mem_map_of_mem _ ht
    have hnone := readAll_eq_none hmem hin
    unfold install_library
    simp [lipo_create, hnone, Result.andThen]

/-- Witness for C1: on an empty filesystem, with target list `["t1"]`, both
the executable merge and the library merge raise and leave the universal
output absent. -/
theorem merge_fails_closed_witness :
    (install_executable_one false { fs := [], log := [] } "/b" "r" "/u/bin" "/tc/bin"
        "swift-driver" ["t1"] =
      .raised .calledProcessError
        (fixup_exe_targets { fs := [], log := [] } "/b" "r" "swift-driver" ["t1"]) ∧
      fsRead (fixup_exe_targets { fs := [], log := [] } "/b" "r" "swift-driver" ["t1"]).fs
        (pjoin "/u/bin" "swift-driver") = none) ∧
    (install_library false { fs := [], log := [] } "/b" "r" "libSwiftDriver" "/u/lib"
        "/tc/lib" ["t1"] = .raised .calledProcessError { fs := [], log := [] }) := by
  have h := merge_fails_closed false { fs := [], log := [] } "/b" "r" "r" "/u/bin" "/u/lib"
    "/tc/bin" "/tc/lib" "swift-driver" "libSwiftDriver" "t1" ["t1"] (by decide)
  exact ⟨h.1 (by decide) (by decide), h.2 (by decide)⟩

/-! ## Claim C2 -/

theorem install_binary_preserves_read (py3 : Bool) (st : St)
    (file src_dir dst_dir : String) (d : FileData)
    (hsrc : fsRead st.fs (pjoin src_dir file) = some d) :
    fsRead (Result.st (install_binary py3 st file (.str src_dir) dst_dir)).fs
      (pjoin src_dir file) = some d := by
  cases py3 with
  | true => simpa [install_binary, pyDecode, Result.st] using hsrc
  | false =>
    have hib : install_binary false st file (.str src_dir) dst_dir =
        .ok { st with fs := fsWrite st.fs (pjoin dst_dir file) d } := by
      simp [install_binary, pyDecode, rsync_file, hsrc]
    rw [hib]
    by_cases he : pjoin src_dir file = pjoin dst_dir file
    · simp only [Result.st, he]
      exact fsRead_fsWrite_self _ _ _
    · simp only [Result.st]
      rw [fsRead_fsWrite_ne _ _ _ _ he]
      exact hsrc

/-- Claim C2: for every executable or shared-library artifact, merging the
build output of any target list — in particular a single target — goes
through the same single merge invocation (the first two conjuncts exhibit
the one code path, with no special-cased skip for N = 1), and with a single
target the merge writes exactly one universal output file whose contents are
byte-identical to its single input (for executables, the input as it stands
after the rpath fixups that precede the merge). -/
theorem merge_single_target (py3 : Bool) (st : St)
    (build_dir configuration package_subpath universal_bin_dir universal_lib_dir
      toolchain_bin_dir toolchain_lib_dir exe lib_name t : String) :
    (∀ targets, install_library py3 st build_dir package_subpath lib_name
        universal_lib_dir toolchain_lib_dir targets =
      (lipo_create st (targets.map (lib_input_path build_dir package_subpath lib_name))
          (pjoin universal_lib_dir (lib_name ++ shared_lib_ext))).andThen
        (fun st1 => install_binary py3 st1 (lib_name ++ shared_lib_ext)
          (.str universal_lib_dir) toolchain_lib_dir)) ∧
    (∀ targets, install_executable_one py3 st build_dir configuration universal_bin_dir
        toolchain_bin_dir exe targets =
      (lipo_create (fixup_exe_targets st build_dir configuration exe targets)
          (targets.map (exe_input_path build_dir configuration exe))
          (pjoin universal_bin_dir exe)).andThen
        (fun st1 => install_binary py3 st1 exe (.str universal_bin_dir) toolchain_bin_dir)) ∧
    (∀ d, fsRead st.fs (lib_input_path build_dir package_subpath lib_name t) = some d →
      lipo_create st [lib_input_path build_dir package_subpath lib_name t]
          (pjoin universal_lib_dir (lib_name ++ shared_lib_ext)) =
        .ok { st with
          fs := fsWrite st.fs (pjoin universal_lib_dir (lib_name ++ shared_lib_ext)) d } ∧
      fsRead (Result.st (install_library py3 st build_dir package_subpath lib_name
          universal_lib_dir toolchain_lib_dir [t])).fs
        (pjoin universal_lib_dir (lib_name ++ shared_lib_ext)) = some d) ∧
    (∀ d, fsRead (fixup_exe_targets st build_dir configuration exe [t]).fs
        (exe_input_path build_dir configuration exe t) = some d →
      fsRead (Result.st (install_executable_one py3 st build_dir configuration
          universal_bin_dir toolchain_bin_dir exe [t])).fs
        (pjoin universal_bin_dir exe) = some d) := by
  refine ⟨fun _ => rfl, fun _ => rfl, fun d hd => ?_, fun d hd => ?_⟩
  · have hlip : lipo_create st [lib_input_path build_dir package_subpath lib_name t]
        (pjoin universal_lib_dir (lib_name ++ shared_lib_ext)) =
      .ok { st with
        fs := fsWrite st.fs (pjoin universal_lib_dir (lib_name ++ shared_lib_ext)) d } := by
      simp [lipo_create, readAll, hd, mergeData]
    refine ⟨hlip, ?_⟩
    unfold install_library
    simp only [List.map_cons, List.map_nil, hlip, Result.andThen]
    exact install_binary_preserves_read py3 _ _ _ _ d (fsRead_fsWrite_self _ _ _)
  · have hlip : lipo_create (fixup_exe_targets st build_dir configuration exe [t])
        [exe_input_path build_dir configuration exe t] (pjoin universal_bin_dir exe) =
      .ok { fixup_exe_targets st build_dir configuration exe [t] with
        fs := fsWrite (fixup_exe_targets st build_dir configuration exe [t]).fs
          (pjoin universal_bin_dir exe) d } := by
      simp [lipo_create, readAll, hd, mergeData]
    unfold install_executable_one
    simp only [List.map_cons, List.map_nil, hlip, Result.andThen]
    exact install_binary_preserves_read py3 _ _ _ _ d (fsRead_fsWrite_self _ _ _)

/-- Witness for C2: a single-target build in which the per-target library
and executable exist; the universal output is byte-identical to the single
input (after rpath fixup, for the executable). -/
theorem merge_single_target_witness :
    fsRead (Result.st (install_library false
        { fs := [("/b/t1/r/lib/libX.dylib", { blob := "L", rpaths := [] })], log := [] }
        "/b" "r" "libX" "/u/lib" "/tc/lib" ["t1"])).fs
      (pjoin "/u/lib" ("libX" ++ shared_lib_ext)) =
      some { blob := "L", rpaths := [] } ∧
    fsRead (Result.st (install_executable_one false
        { fs := [("/b/t1/r/bin/e", { blob := "E", rpaths := [] })], log := [] }
        "/b" "r" "/u/bin" "/tc/bin" "e" ["t1"])).fs
      (pjoin "/u/bin" "e") =
      some { blob := "E", rpaths := ["@executable_path/../lib/swift/macosx"] } := by
  constructor
  · exact ((merge_single_target false
      { fs := [("/b/t1/r/lib/libX.dylib", { blob := "L", rpaths := [] })], log := [] }
      "/b" "r" "r" "/u/bin" "/u/lib" "/tc/bin" "/tc/lib" "e" "libX" "t1").2.2.1
      { blob := "L", rpaths := [] } (by decide)).2
  · exact (merge_single_target false
      { fs := [("/b/t1/r/bin/e", { blob := "E", rpaths := [] })], log := [] }
      "/b" "r" "r" "/u/bin" "/u/lib" "/tc/bin" "/tc/lib" "e" "libX" "t1").2.2.2
      { blob := "E", rpaths := ["@executable_path/../lib/swift/macosx"] } (by decide)

/-! ## Claim C4 -/

/-- Claim C4: `install_binary` unconditionally calls `decode('UTF-8')` on
its source-directory argument, so under Python 3 semantics it succeeds only
when given a byte string: (i) with a text string it raises `AttributeError`
with the state untouched — before the copy command runs; (ii)/(iii) on the
Darwin install path `install_library` and `install_executables` pass
ordinary text-string paths, so every universal-artifact copy raises
`AttributeError` right after the merge; (iv) only the non-Darwin path,
which passes the byte-string output of `swiftpm_bin_path`, can complete the
copy. -/
theorem decode_bytes_only (st : St) :
    (∀ file s install_dir, install_binary true st file (PyStr.str s) install_dir =
        .raised .attributeError st) ∧
    (∀ build_dir package_subpath lib_name universal_lib_dir toolchain_lib_dir targets ds,
      readAll st.fs (targets.map (lib_input_path build_dir package_subpath lib_name)) =
          some ds →
      install_library true st build_dir package_subpath lib_name universal_lib_dir
          toolchain_lib_dir targets =
        .raised .attributeError { st with fs := fsWrite st.fs (pjoin universal_lib_dir (lib_name ++ shared_lib_ext)) (mergeData ds) }) ∧
    (∀ build_dir configuration universal_bin_dir toolchain_bin_dir exe targets ds,
      readAll (fixup_exe_targets st build_dir configuration exe targets).fs
          (targets.map (exe_input_path build_dir configuration exe)) = some ds →
      install_executable_one true st build_dir configuration universal_bin_dir
          toolchain_bin_dir exe targets =
        .raised .attributeError { fixup_exe_targets st build_dir configuration exe targets with fs := fsWrite (fixup_exe_targets st build_dir configuration exe targets).fs (pjoin universal_bin_dir exe) (mergeData ds) }) ∧
    (∀ binPath toolchain d1 d2,
      fsRead st.fs (pjoin binPath "swift-driver") = some d1 →
      fsRead st.fs (pjoin binPath "swift-help") = some d2 →
      (non_darwin_install true st (.bytes binPath) toolchain).isOk = true) := by
  have hstr : ∀ (st2 : St) file s install_dir,
      install_binary true st2 file (PyStr.str s) install_dir =
        .raised .attributeError st2 := by
    intro st2 file s install_dir
    simp [install_binary, pyDecode]
  refine ⟨hstr st, ?_, ?_, ?_⟩
  · intro build_dir package_subpath lib_name universal_lib_dir toolchain_lib_dir targets ds h
    unfold install_library
    simp only [lipo_create, h, Result.andThen]
    exact hstr _ _ _ _
  · intro build_dir configuration universal_bin_dir toolchain_bin_dir exe targets ds h
    unfold install_executable_one
    simp only [lipo_create, h, Result.andThen]
    exact hstr _ _ _ _
  · intro binPath toolchain d1 d2 h1 h2
    have hib1 : install_binary true st "swift-driver" (.bytes binPath) (pjoin toolchain "bin") =
        .ok { st with fs := fsWrite st.fs (pjoin (pjoin toolchain "bin") "swift-driver") d1 } := by
      simp [install_binary, pyDecode, rsync_file, h1]
    show ((install_binary true st "swift-driver" (.bytes binPath) (pjoin toolchain "bin")).andThen
      fun s => install_binary true s "swift-help" (.bytes binPath) (pjoin toolchain "bin")).isOk = true
    rw [hib1, Result.andThen]
    have h2b : fsRead (fsWrite st.fs (pjoin (pjoin toolchain "bin") "swift-driver") d1)
        (pjoin binPath "swift-help") = some d2 := by
      rw [fsRead_fsWrite_ne]
      · exact h2
      · exact @append_ne_of_last_ne _ _ _ _ 'p' 'r' (by decide) (by decide) (by decide)
    simp [install_binary, pyDecode, rsync_file, h2b, Result.isOk]

/-- Witness for C4: with the per-target library present, the Darwin-path
library install raises `AttributeError` after writing the universal file;
with the executables present under the byte-string bin path, the non-Darwin
install completes. -/
theorem decode_bytes_only_witness :
    install_library true
        { fs := [("/b/t1/r/lib/libX.dylib", { blob := "L", rpaths := [] })], log := [] }
        "/b" "r" "libX" "/u/lib" "/tc/lib" ["t1"] =
      .raised .attributeError
        { fs := fsWrite [("/b/t1/r/lib/libX.dylib", { blob := "L", rpaths := [] })]
            (pjoin "/u/lib" ("libX" ++ shared_lib_ext)) (mergeData [{ blob := "L", rpaths := [] }]),
          log := [] } ∧
    (non_darwin_install true
        { fs := [("/p/swift-driver", { blob := "D", rpaths := [] }),
                 ("/p/swift-help", { blob := "H", rpaths := [] })], log := [] }
        (.bytes "/p") "/tc").isOk = true := by
  constructor
  · exact (decode_bytes_only
      { fs := [("/b/t1/r/lib/libX.dylib", { blob := "L", rpaths := [] })], log := [] }).2.1
      "/b" "r" "libX" "/u/lib" "/tc/lib" ["t1"] [{ blob := "L", rpaths := [] }] (by decide)
  · exact (decode_bytes_only
      { fs := [("/p/swift-driver", { blob := "D", rpaths := [] }),
               ("/p/swift-help", { blob := "H", rpaths := [] })], log := [] }).2.2.2
      "/p" "/tc" { blob := "D", rpaths := [] } { blob := "H", rpaths := [] }
      (by decide) (by decide)

/-! ## Claim C9: supporting lemmas -/

theorem fsErase_fsErase (fs : FS) (p : String) :
    fsErase (fsErase fs p) p = fsErase fs p := by
  induction fs with
  | nil => rfl
  | cons e es ih =>
    by_cases h : e.1 = p <;> simp [fsErase, h, ih]

theorem fsErase_fsWrite_self (fs : FS) (p : String) (d : FileData) :
    fsErase (fsWrite fs p d) p = fsErase fs p := by
  simp [fsWrite, fsErase, fsErase_fsErase]

/-- Distinctness of per-module interface file names: `u ++ e1` and `v ++ e2`
under one directory differ when the bases differ (same extension) or the
extensions differ (their last characters differ). -/
theorem module_file_ne {u v e1 e2 : String} (dir : String)
    (h1 : e1 ∈ module_exts) (h2 : e2 ∈ module_exts)
    (hne : u ≠ v ∨ e1 ≠ e2) :
    pjoin dir (u ++ e1) ≠ pjoin dir (v ++ e2) := by
  apply pjoin_ne_of_ne
  simp only [module_exts, List.mem_cons, List.mem_singleton, List.not_mem_nil, or_false] at h1 h2
  rcases h1 with h1 | h1 <;> rcases h2 with h2 | h2 <;> subst h1 <;> subst h2
  · rcases hne with huv | habs
    · exact fun hc => huv (append_right_cancel_str hc)
    · exact absurd rfl habs
  · exact @append_ne_of_last_ne _ _ _ _ 'e' 'c' (by decide) (by decide) (by decide)
  · exact @append_ne_of_last_ne _ _ _ _ 'c' 'e' (by decide) (by decide) (by decide)
  · rcases hne with huv | habs
    · exact fun hc => huv (append_right_cancel_str hc)
    · exact absurd rfl habs

/-- The filesystem effect of one `install_module` target iteration: stage
the two interface files under the module's own name and rename each to the
target's name. -/
def module_step_fs (fs : FS) (dir M t : String) (d1 d2 : FileData) : FS :=
  fsWrite (fsErase (fsWrite (fsErase fs (pjoin dir (M ++ ".swiftmodule")))
      (pjoin dir (t ++ ".swiftmodule")) d1)
    (pjoin dir (M ++ ".swiftdoc"))) (pjoin dir (t ++ ".swiftdoc")) d2

theorem module_step_fs_read (fs : FS) (dir M t : String) (d1 d2 : FileData)
    (q : String) (htM : t ≠ M) :
    fsRead (module_step_fs fs dir M t d1 d2) q =
      if q = pjoin dir (t ++ ".swiftdoc") then some d2
      else if q = pjoin dir (M ++ ".swiftdoc") then none
      else if q = pjoin dir (t ++ ".swiftmodule") then some d1
      else if q = pjoin dir (M ++ ".swiftmodule") then none
      else fsRead fs q := by
  have hmem1 : ".swiftmodule" ∈ module_exts := by simp [module_exts]
  have hmem2 : ".swiftdoc" ∈ module_exts := by simp [module_exts]
  have hMT : M ≠ t := Ne.symm htM
  have e1 : pjoin dir (M ++ ".swiftdoc") ≠ pjoin dir (t ++ ".swiftdoc") :=
    module_file_ne dir hmem2 hmem2 (Or.inl hMT)
  have e2 : pjoin dir (t ++ ".swiftmodule") ≠ pjoin dir (t ++ ".swiftdoc") :=
    module_file_ne dir hmem1 hmem2 (Or.inr (by decide))
  have e3 : pjoin dir (t ++ ".swiftmodule") ≠ pjoin dir (M ++ ".swiftdoc") :=
    module_file_ne dir hmem1 hmem2 (Or.inr (by decide))
  have e4 : pjoin dir (M ++ ".swiftmodule") ≠ pjoin dir (t ++ ".swiftdoc") :=
    module_file_ne dir hmem1 hmem2 (Or.inr (by decide))
  have e5 : pjoin dir (M ++ ".swiftmodule") ≠ pjoin dir (M ++ ".swiftdoc") :=
    module_file_ne dir hmem1 hmem2 (Or.inr (by decide))
  have e6 : pjoin dir (M ++ ".swiftmodule") ≠ pjoin dir (t ++ ".swiftmodule") :=
    module_file_ne dir hmem1 hmem1 (Or.inl hMT)
  unfold module_step_fs
  by_cases h1 : q = pjoin dir (t ++ ".swiftdoc")
  · rw [h1, fsRead_fsWrite_self]
    simp [h1]
  · rw [fsRead_fsWrite_ne _ _ _ _ h1]
    by_cases h2 : q = pjoin dir (M ++ ".swiftdoc")
    · rw [h2, fsRead_fsErase_self]
      simp [h1, h2, e1]
    · rw [fsRead_fsErase_ne _ _ _ h2]
      by_cases h3 : q = pjoin dir (t ++ ".swiftmodule")
      · rw [h3, fsRead_fsWrite_self]
        simp [h1, h2, h3, e2, e3]
      · rw [fsRead_fsWrite_ne _ _ _ _ h3]
        by_cases h4 : q = pjoin dir (M ++ ".swiftmodule")
        · rw [h4, fsRead_fsErase_self]
          simp [h1, h2, h3, h4, e4, e5, e6]
        · rw [fsRead_fsErase_ne _ _ _ h4]
          simp [h1, h2, h3, h4]

theorem install_module_ext_ok (st : St) (dir sd M t e : String) (d : FileData)
    (hsrc : fsRead st.fs (pjoin sd (M ++ e)) = some d) :
    install_module_ext false st dir sd M t e =
      .ok { st with fs := fsWrite (fsErase st.fs (pjoin dir (M ++ e))) (pjoin dir (t ++ e)) d } := by
  unfold install_module_ext
  have hib : install_binary false st (M ++ e) (.str sd) dir =
      .ok { st with fs := fsWrite st.fs (pjoin dir (M ++ e)) d } := by
    simp [install_binary, pyDecode, rsync_file, hsrc]
  rw [hib]
  show os_rename { st with fs := fsWrite st.fs (pjoin dir (M ++ e)) d }
      (pjoin dir (M ++ e)) (pjoin dir (t ++ e)) = _
  unfold os_rename
  rw [fsRead_fsWrite_self]
  rw [fsErase_fsWrite_self]

theorem install_module_target_ok (st : St) (dir sd M t : String) (d1 d2 : FileData)
    (h1 : fsRead st.fs (pjoin sd (M ++ ".swiftmodule")) = some d1)
    (h2 : fsRead st.fs (pjoin sd (M ++ ".swiftdoc")) = some d2)
    (hd1 : pjoin sd (M ++ ".swiftdoc") ≠ pjoin dir (M ++ ".swiftmodule"))
    (hd2 : pjoin sd (M ++ ".swiftdoc") ≠ pjoin dir (t ++ ".swiftmodule")) :
    install_module_target false st dir sd M t =
      .ok { st with fs := module_step_fs st.fs dir M t d1 d2 } := by
  unfold install_module_target
  rw [install_module_ext_ok st dir sd M t ".swiftmodule" d1 h1]
  show install_module_ext false _ dir sd M t ".swiftdoc" = _
  have h2p : fsRead (fsWrite (fsErase st.fs (pjoin dir (M ++ ".swiftmodule")))
      (pjoin dir (t ++ ".swiftmodule")) d1) (pjoin sd (M ++ ".swiftdoc")) = some d2 := by
    rw [fsRead_fsWrite_ne _ _ _ _ hd2, fsRead_fsErase_ne _ _ _ hd1]
    exact h2
  rw [install_module_ext_ok _ dir sd M t ".swiftdoc" d2 h2p]
  rfl

theorem module_step_fs_read_dst (fs : FS) (dir M t : String) (d1 d2 : FileData)
    (htM : t ≠ M) :
    fsRead (module_step_fs fs dir M t d1 d2) (pjoin dir (t ++ ".swiftmodule")) = some d1 ∧
    fsRead (module_step_fs fs dir M t d1 d2) (pjoin dir (t ++ ".swiftdoc")) = some d2 := by
  have hmem1 : ".swiftmodule" ∈ module_exts := by simp [module_exts]
  have hmem2 : ".swiftdoc" ∈ module_exts := by simp [module_exts]
  have e2 : pjoin dir (t ++ ".swiftmodule") ≠ pjoin dir (t ++ ".swiftdoc") :=
    module_file_ne dir hmem1 hmem2 (Or.inr (by decide))
  have e3 : pjoin dir (t ++ ".swiftmodule") ≠ pjoin dir (M ++ ".swiftdoc") :=
    module_file_ne dir hmem1 hmem2 (Or.inr (by decide))
  constructor
  · rw [module_step_fs_read fs dir M t d1 d2 _ htM]
    simp [e2, e3]
  · rw [module_step_fs_read fs dir M t d1 d2 _ htM]
    simp

theorem install_module_go_spec (build_dir package_subpath toolchain_lib M : String)
    (D : String → String → FileData) :
    ∀ (targets : List String) (st : St),
    M ∉ targets →
    (∀ t ∈ targets, ∀ e ∈ module_exts,
      fsRead st.fs (pjoin (pjoin (pjoin build_dir t) package_subpath) (M ++ e)) = some (D t e)) →
    (∀ t ∈ targets, ∀ e ∈ module_exts, ∀ u, (u = M ∨ u ∈ targets) → ∀ e2 ∈ module_exts,
      pjoin (pjoin (pjoin build_dir t) package_subpath) (M ++ e) ≠
        pjoin (pjoin toolchain_lib (M ++ ".swiftmodule")) (u ++ e2)) →
    ∃ stf, install_module_go false st build_dir package_subpath
        (pjoin toolchain_lib (M ++ ".swiftmodule")) M targets = .ok stf ∧
      (∀ t ∈ targets, ∀ e ∈ module_exts,
        fsRead stf.fs (pjoin (pjoin toolchain_lib (M ++ ".swiftmodule")) (t ++ e)) =
          some (D t e)) ∧
      (∀ q, (∀ u, (u = M ∨ u ∈ targets) → ∀ e ∈ module_exts,
          q ≠ pjoin (pjoin toolchain_lib (M ++ ".swiftmodule")) (u ++ e)) →
        fsRead stf.fs q = fsRead st.fs q) := by
  intro targets
  induction targets with
  | nil =>
    intro st hM hsrc hdisj
    refine ⟨st, rfl, ?_, ?_⟩
    · intro t ht
      exact absurd ht (List.not_mem_nil t)
    · exact fun q _ => rfl
  | cons t ts ih =>
    intro st hM hsrc hdisj
    have hmem1 : ".swiftmodule" ∈ module_exts := by simp [module_exts]
    have hmem2 : ".swiftdoc" ∈ module_exts := by simp [module_exts]
    have htM : t ≠ M := by
      intro he; exact hM (he ▸ List.mem_cons_self t ts)
    have hthead : t ∈ t :: ts := List.mem_cons_self t ts
    have h1 := hsrc t hthead ".swiftmodule" hmem1
    have h2 := hsrc t hthead ".swiftdoc" hmem2
    have hd1 := hdisj t hthead ".swiftdoc" hmem2 M (Or.inl rfl) ".swiftmodule" hmem1
    have hd2 := hdisj t hthead ".swiftdoc" hmem2 t (Or.inr hthead) ".swiftmodule" hmem1
    have htgt := install_module_target_ok st (pjoin toolchain_lib (M ++ ".swiftmodule"))
      (pjoin (pjoin build_dir t) package_subpath) M t (D t ".swiftmodule") (D t ".swiftdoc")
      h1 h2 hd1 hd2
    have hMts : M ∉ ts := fun hin => hM (List.mem_cons_of_mem t hin)
    set dir := pjoin toolchain_lib (M ++ ".swiftmodule") with hdirdef
    set st1 : St := { st with
      fs := module_step_fs st.fs dir M t (D t ".swiftmodule") (D t ".swiftdoc") } with hst1def
    have hst1fs : st1.fs = module_step_fs st.fs dir M t (D t ".swiftmodule") (D t ".swiftdoc") := rfl
    have hstep : ∀ q, (∀ u, (u = M ∨ u = t) → ∀ e ∈ module_exts, q ≠ pjoin dir (u ++ e)) →
        fsRead st1.fs q = fsRead st.fs q := by
      intro q hq
      rw [hst1fs, module_step_fs_read st.fs dir M t _ _ q htM]
      simp [hq t (Or.inr rfl) ".swiftdoc" hmem2, hq M (Or.inl rfl) ".swiftdoc" hmem2,
        hq t (Or.inr rfl) ".swiftmodule" hmem1, hq M (Or.inl rfl) ".swiftmodule" hmem1]
    have hsrc1 : ∀ t2 ∈ ts, ∀ e ∈ module_exts,
        fsRead st1.fs (pjoin (pjoin (pjoin build_dir t2) package_subpath) (M ++ e)) =
          some (D t2 e) := by
      intro t2 ht2 e he
      rw [hstep _ (fun u hu e2 he2 => hdisj t2 (List.mem_cons_of_mem t ht2) e he u
        (hu.imp id (fun hut => by rw [hut]; exact hthead)) e2 he2)]
      exact hsrc t2 (List.mem_cons_of_mem t ht2) e he
    have hdisj1 : ∀ t2 ∈ ts, ∀ e ∈ module_exts, ∀ u, (u = M ∨ u ∈ ts) → ∀ e2 ∈ module_exts,
        pjoin (pjoin (pjoin build_dir t2) package_subpath) (M ++ e) ≠ pjoin dir (u ++ e2) :=
      fun t2 ht2 e he u hu e2 he2 => hdisj t2 (List.mem_cons_of_mem t ht2) e he u
        (hu.imp id (List.mem_cons_of_mem t)) e2 he2
    obtain ⟨stf, hrun, hcreate, hframe⟩ := ih st1 hMts hsrc1 hdisj1
    refine ⟨stf, ?_, ?_, ?_⟩
    · show (install_module_target false st dir
          (pjoin (pjoin build_dir t) package_subpath) M t).andThen
          (fun s => install_module_go false s build_dir package_subpath dir M ts) = .ok stf
      rw [htgt]
      exact hrun
    · intro t2 ht2 e he
      rcases List.mem_cons.1 ht2 with hh | hh
      · subst hh
        by_cases hts : t2 ∈ ts
        · exact hcreate t2 hts e he
        · have hne : ∀ u, (u = M ∨ u ∈ ts) → ∀ e2 ∈ module_exts,
              pjoin dir (t2 ++ e) ≠ pjoin dir (u ++ e2) := by
            intro u hu e2 he2
            apply module_file_ne dir he he2
            left
            rcases hu with hu | hu
            · rw [hu]; exact htM
            · intro he'; exact hts (he' ▸ hu)
          rw [hframe _ hne, hst1fs]
          rcases List.mem_cons.1 he with he' | he'
          · subst he'
            exact (module_step_fs_read_dst st.fs dir M t2 _ _ htM).1
          · have he'' : e = ".swiftdoc" := by simpa [module_exts] using he'
            subst he''
            exact (module_step_fs_read_dst st.fs dir M t2 _ _ htM).2
      · exact hcreate t2 hh e he
    · intro q hq
      have hq1 : ∀ u, (u = M ∨ u ∈ ts) → ∀ e ∈ module_exts, q ≠ pjoin dir (u ++ e) :=
        fun u hu e he => hq u (hu.imp id (List.mem_cons_of_mem t)) e he
      rw [hframe q hq1]
      exact hstep q (fun u hu e he => hq u
        (hu.imp id (fun hut => by rw [hut]; exact hthead)) e he)

/-- Initial state for the C9 counterexample: the per-target interface
sources for target `T` exist, and the module directory `A.swiftmodule`
already holds the interface pair previously installed for a target named
`A` — a target not in the current list. -/
def cexModuleSt : St where
  fs := [
    (pjoin (pjoin (pjoin "/b" "T") "sub") ("A" ++ ".swiftmodule"), { blob := "smT", rpaths := [] }),
    (pjoin (pjoin (pjoin "/b" "T") "sub") ("A" ++ ".swiftdoc"), { blob := "sdT", rpaths := [] }),
    (pjoin (pjoin "/lib" ("A" ++ ".swiftmodule")) ("A" ++ ".swiftmodule"), { blob := "oldm", rpaths := [] }),
    (pjoin (pjoin "/lib" ("A" ++ ".swiftmodule")) ("A" ++ ".swiftdoc"), { blob := "oldd", rpaths := [] })]
  log := []

/-- Counterexample to claim C9 as stated: installing module `A` for the
target list `["T"]` destroys the interface files already present for the
previously-installed target `A` (a target not in the current list): the
copy step stages the incoming file under the module's own name
`A.swiftmodule`, overwriting the old target-`A` file, and the rename then
moves it to `T.swiftmodule`, so the old file is removed rather than
preserved. -/
theorem module_install_append_only_counterexample :
    ("A" ∉ (["T"] : List String)) ∧
    fsRead cexModuleSt.fs
        (pjoin (pjoin "/lib" ("A" ++ ".swiftmodule")) ("A" ++ ".swiftmodule")) =
      some { blob := "oldm", rpaths := [] } ∧
    (install_module false cexModuleSt "/b" "sub" "/lib" "A" ["T"]).isOk = true ∧
    fsRead (Result.st (install_module false cexModuleSt "/b" "sub" "/lib" "A" ["T"])).fs
        (pjoin (pjoin "/lib" ("A" ++ ".swiftmodule")) ("A" ++ ".swiftmodule")) = none := by
  exact ⟨by decide, by decide, by decide, by decide⟩

/-- Claim C9 as amended: for every module name `M` and target list with `M`
itself not among the target names (current or previously installed — the
copy step transiently stages files under `M`'s own name, so a target named
exactly `M` is clobbered, cf. the counterexample), under Python 2 semantics
(the only semantics under which the Darwin install path executes at all,
cf. C4), and with the per-target source files present and distinct from the
module-directory paths, installing `M`'s binary module interfaces creates
under the single directory `M.swiftmodule` exactly one file pair per target
named `<target>.swiftmodule` / `<target>.swiftdoc` holding that target's
source contents, and any files already present in that directory for
targets not in the current list (and not named `M`) are neither removed nor
renamed — append-only. -/
theorem module_install_append_only (build_dir package_subpath toolchain_lib M : String)
    (D : String → String → FileData) (targets : List String) (st : St)
    (hM : M ∉ targets)
    (hsrc : ∀ t ∈ targets, ∀ e ∈ module_exts,
      fsRead st.fs (pjoin (pjoin (pjoin build_dir t) package_subpath) (M ++ e)) = some (D t e))
    (hdisj : ∀ t ∈ targets, ∀ e ∈ module_exts, ∀ u, (u = M ∨ u ∈ targets) → ∀ e2 ∈ module_exts,
      pjoin (pjoin (pjoin build_dir t) package_subpath) (M ++ e) ≠
        pjoin (pjoin toolchain_lib (M ++ ".swiftmodule")) (u ++ e2)) :
    ∃ stf, install_module false st build_dir package_subpath toolchain_lib M targets = .ok stf ∧
      (∀ t ∈ targets, ∀ e ∈ module_exts,
        fsRead stf.fs (pjoin (pjoin toolchain_lib (M ++ ".swiftmodule")) (t ++ e)) =
          some (D t e)) ∧
      (∀ u, u ∉ targets → u ≠ M → ∀ e ∈ module_exts,
        fsRead stf.fs (pjoin (pjoin toolchain_lib (M ++ ".swiftmodule")) (u ++ e)) =
          fsRead st.fs (pjoin (pjoin toolchain_lib (M ++ ".swiftmodule")) (u ++ e))) := by
  obtain ⟨stf, hrun, hcreate, hframe⟩ :=
    install_module_go_spec build_dir package_subpath toolchain_lib M D targets st hM hsrc hdisj
  refine ⟨stf, hrun, hcreate, ?_⟩
  intro u hu huM e he
  apply hframe
  intro v hv e2 he2
  apply module_file_ne _ he he2
  left
  rcases hv with hv | hv
  · rw [hv]; exact huM
  · intro huv; exact hu (huv ▸ hv)

/-- Witness for the amended C9: module `A`, target list `["T"]`, a stale
pair for old target `U`; installation creates `T`'s pair and leaves `U`'s
file untouched. -/
theorem module_install_append_only_witness :
    ∃ stf, install_module false
        { fs := [
            (pjoin (pjoin (pjoin "/b" "T") "sub") ("A" ++ ".swiftmodule"), { blob := "sm", rpaths := [] }),
            (pjoin (pjoin (pjoin "/b" "T") "sub") ("A" ++ ".swiftdoc"), { blob := "sd", rpaths := [] }),
            (pjoin (pjoin "/lib" ("A" ++ ".swiftmodule")) ("U" ++ ".swiftmodule"), { blob := "old", rpaths := [] })],
          log := [] } "/b" "sub" "/lib" "A" ["T"] = .ok stf ∧
      fsRead stf.fs (pjoin (pjoin "/lib" ("A" ++ ".swiftmodule")) ("T" ++ ".swiftmodule")) =
        some { blob := "sm", rpaths := [] } ∧
      fsRead stf.fs (pjoin (pjoin "/lib" ("A" ++ ".swiftmodule")) ("U" ++ ".swiftmodule")) =
        some { blob := "old", rpaths := [] } := by
  obtain ⟨stf, hrun, hcreate, hframe⟩ := module_install_append_only "/b" "sub" "/lib" "A"
    (fun _ e => if e = ".swiftmodule" then { blob := "sm", rpaths := [] }
      else { blob := "sd", rpaths := [] })
    ["T"]
    { fs := [
        (pjoin (pjoin (pjoin "/b" "T") "sub") ("A" ++ ".swiftmodule"), { blob := "sm", rpaths := [] }),
        (pjoin (pjoin (pjoin "/b" "T") "sub") ("A" ++ ".swiftdoc"), { blob := "sd", rpaths := [] }),
        (pjoin (pjoin "/lib" ("A" ++ ".swiftmodule")) ("U" ++ ".swiftmodule"), { blob := "old", rpaths := [] })],
      log := [] }
    (by decide)
    (by
      intro t ht e he
      simp only [List.mem_singleton] at ht
      subst ht
      simp only [module_exts, List.mem_cons, List.mem_singleton, List.not_mem_nil,
        or_false] at he
      rcases he with rfl | rfl <;> decide)
    (by
      intro t ht e he u hu e2 he2
      simp only [List.mem_singleton] at ht
      subst ht
      simp only [module_exts, List.mem_cons, List.mem_singleton, List.not_mem_nil,
        or_false] at he he2
      rcases hu with rfl | hu
      · rcases he with rfl | rfl <;> rcases he2 with rfl | rfl <;> decide
      · simp only [List.mem_singleton] at hu
        subst hu
        rcases he with rfl | rfl <;> rcases he2 with rfl | rfl <;> decide)
  refine ⟨stf, hrun, ?_, ?_⟩
  · have h := hcreate "T" (by decide) ".swiftmodule" (by simp [module_exts])
    simpa using h
  · have h := hframe "U" (by decide) (by decide) ".swiftmodule" (by simp [module_exts])
    rw [h]
    decide

/-! ## Claim C10 -/

/-- A complete single-target build tree: every artifact `install_swiftdriver`
consumes exists under `/b/t/r`, the freshly linked binaries still carrying
their build-tree rpaths. -/
def fd (b : String) (rp : List String) : FileData where
  blob := b
  rpaths := rp

def c10Fs : FS :=
  [("/b/t/r/bin/swift-driver", fd "sdrv" ["/b/t/r/lib", "/b/t/r/dependencies/swift-tools-support-core/lib", "/b/t/r/dependencies/swift-argument-parser/lib"]),
   ("/b/t/r/bin/swift-help", fd "shelp" ["/b/t/r/lib", "/b/t/r/dependencies/swift-tools-support-core/lib", "/b/t/r/dependencies/swift-argument-parser/lib"]),
   ("/b/t/r/lib/libSwiftDriver.dylib", fd "l1" ["/b/t/r/lib"]),
   ("/b/t/r/lib/libSwiftOptions.dylib", fd "l2" []),
   ("/b/t/r/lib/libSwiftDriverExecution.dylib", fd "l3" ["/b/t/r/lib"]),
   ("/b/t/r/dependencies/swift-tools-support-core/lib/libTSCBasic.dylib", fd "l4" []),
   ("/b/t/r/dependencies/swift-tools-support-core/lib/libTSCLibc.dylib", fd "l5" []),
   ("/b/t/r/dependencies/swift-tools-support-core/lib/libTSCUtility.dylib", fd "l6" []),
   ("/b/t/r/dependencies/swift-argument-parser/lib/libArgumentParser.dylib", fd "l7" []),
   ("/b/t/r/dependencies/llbuild/lib/libllbuildSwift.dylib", fd "l8" []),
   ("/b/t/r/dependencies/llbuild/lib/libllbuild.dylib", fd "l9" []),
   ("/s/swift-tools-support-core/Sources/TSCclibc/include", fd "inc" []),
   ("/b/t/r/swift/SwiftDriver.swiftmodule", fd "m1" []),
   ("/b/t/r/swift/SwiftDriver.swiftdoc", fd "m2" []),
   ("/b/t/r/swift/SwiftOptions.swiftmodule", fd "m3" []),
   ("/b/t/r/swift/SwiftOptions.swiftdoc", fd "m4" []),
   ("/b/t/r/dependencies/swift-tools-support-core/swift/TSCUtility.swiftmodule", fd "m5" []),
   ("/b/t/r/dependencies/swift-tools-support-core/swift/TSCUtility.swiftdoc", fd "m6" []),
   ("/b/t/r/dependencies/swift-tools-support-core/swift/TSCLibc.swiftmodule", fd "m7" []),
   ("/b/t/r/dependencies/swift-tools-support-core/swift/TSCLibc.swiftdoc", fd "m8" []),
   ("/b/t/r/dependencies/swift-tools-support-core/swift/TSCBasic.swiftmodule", fd "m9" []),
   ("/b/t/r/dependencies/swift-tools-support-core/swift/TSCBasic.swiftdoc", fd "m10" []),
   ("/b/t/r/dependencies/swift-argument-parser/swift/ArgumentParser.swiftmodule", fd "m11" []),
   ("/b/t/r/dependencies/swift-argument-parser/swift/ArgumentParser.swiftdoc", fd "m12" [])]

def c10St : St where
  fs := c10Fs
  log := []

/-- One per-prefix repetition of the install loop on the concrete build tree. -/
def c10Rep (pref : String) (st : St) : Result :=
  install_swiftdriver false st "/b" "r" "/s/swift-driver" pref ["t"]

set_option maxRecDepth 200000 in
/-- Counterexample to claim C10 as stated: with install prefixes `/p1` and
`/p2`, the repetitions share mutable state.  (a) The `/p1` repetition
modifies the per-target executable — a build-tree file at a
prefix-independent path that is among the `/p2` repetition's merge inputs;
(b) it creates the universal output at a prefix-independent build-tree
path; (c) the `/p2` repetition's observable behavior depends on whether the
`/p1` repetition ran before it (different warnings are printed), so the
repetition for one prefix reads state written by the repetition for the
other. -/
theorem install_prefixes_shared_state_counterexample :
    (fsRead (Result.st (c10Rep "/p1" c10St)).fs (exe_input_path "/b" "r" "swift-driver" "t") ≠
      fsRead c10St.fs (exe_input_path "/b" "r" "swift-driver" "t")) ∧
    (exe_input_path "/b" "r" "swift-driver" "t" ∈
      (["t"].map (exe_input_path "/b" "r" "swift-driver"))) ∧
    (fsRead (Result.st (c10Rep "/p1" c10St)).fs
        (pjoin (pjoin (universal_dir_of "/b") "bin") "swift-driver") ≠ none) ∧
    (fsRead c10St.fs (pjoin (pjoin (universal_dir_of "/b") "bin") "swift-driver") = none) ∧
    ((Result.st (c10Rep "/p2" { fs := (Result.st (c10Rep "/p1" c10St)).fs, log := [] })).log ≠
      (Result.st (c10Rep "/p2" c10St)).log) := by
  exact ⟨by decide, by decide, by decide, by decide, by decide⟩

set_option maxRecDepth 200000 in
/-- Claim C10 as amended: when the configuration lists multiple install
prefixes, installation is repeated once per prefix, but the repetitions
thread one shared mutable filesystem state in sequence — each repetition
runs on the state the previous one produced, re-editing the per-target
binaries and regenerating the universal artifacts at the same
prefix-independent build-tree paths — and each prefix still receives its
own installed copy of every artifact (exhibited on the concrete build
tree: after the two-prefix run, `/p1/bin` and `/p2/bin` hold the same
universal executable that sits at the shared universal path). -/
theorem install_prefixes_shared_state (py3 : Bool)
    (build_dir configuration package_path p1 p2 : String) (ps : List String)
    (targets : List String) (st : St) :
    (install py3 st build_dir configuration package_path (p1 :: p2 :: ps) targets =
      (install_swiftdriver py3 st build_dir configuration package_path p1 targets).andThen
        (fun st1 =>
          (install_swiftdriver py3 st1 build_dir configuration package_path p2 targets).andThen
            (install_loop py3 build_dir configuration package_path targets ps))) ∧
    (fsRead (Result.st (install false c10St "/b" "r" "/s/swift-driver" ["/p1", "/p2"] ["t"])).fs
        (pjoin (pjoin "/p1" "bin") "swift-driver") =
      some (fd "sdrv" ["@executable_path/../lib/swift/macosx"])) ∧
    (fsRead (Result.st (install false c10St "/b" "r" "/s/swift-driver" ["/p1", "/p2"] ["t"])).fs
        (pjoin (pjoin "/p2" "bin") "swift-driver") =
      some (fd "sdrv" ["@executable_path/../lib/swift/macosx"])) ∧
    (fsRead (Result.st (install false c10St "/b" "r" "/s/swift-driver" ["/p1", "/p2"] ["t"])).fs
        (pjoin (pjoin (universal_dir_of "/b") "bin") "swift-driver") =
      some (fd "sdrv" ["@executable_path/../lib/swift/macosx"])) := by
  exact ⟨rfl, by decide, by decide, by decide⟩

end SwiftDriverBuild
